import Mathlib

/-!
Verification of the OmegaParse classification-and-normalization pipeline.

This file gives a shallow embedding, in Lean 4, of the core of the
`omega_parse` Python package (`detectors.py`, `normalizers.py`, `utils.py`,
`schemas.py`) and proves, refutes, or exhibits bugs for the frozen claims
about it.

Modelling conventions:
- Values loaded from JSON are modelled by the inductive `JsonValue`
  (JSON numbers are modelled as integers; no claim involves numeric
  values beyond their truthiness and type).
- A file on disk is modelled by `FileData`: the outcome of reading its
  text (`Except` carries the OS error message on failure) and the outcome
  of `json.load` on it (`none` models both read failure and a JSON parse
  error, exactly the cases where `safe_json_load` returns `None`).
- Python code that can raise is embedded into `Except String`; total
  Python code is embedded as total Lean functions.
- Python string formatting of containers (`repr`) is reproduced up to
  quoting of the enclosed strings; no claim depends on that rendering.
-/

/-- Model of the values produced by Python `json.load`: `None`, booleans,
numbers (modelled as integers), strings, arrays and objects (ordered
key-value lists, as Python dicts preserve insertion order). -/
inductive JsonValue where
  | null : JsonValue
  | bool : Bool → JsonValue
  | num : Int → JsonValue
  | str : String → JsonValue
  | arr : List JsonValue → JsonValue
  | obj : List (String × JsonValue) → JsonValue

/-- Python truthiness (`if value:`) for loaded JSON values: `None`, `False`,
`0`, the empty string, the empty list and the empty dict are falsy. -/
def truthy : JsonValue → Bool
  | .null => false
  | .bool b => b
  | .num n => n != 0
  | .str s => s != ""
  | .arr xs => !xs.isEmpty
  | .obj fs => !fs.isEmpty

/-- Python truthiness of an optional string (`if timestamp_str:`):
`None` and the empty string are falsy. -/
def strTruthy : Option String → Bool
  | none => false
  | some s => s != ""

mutual

/-- Python `==` on loaded JSON values (structural equality; the `1 == True`
corner of Python equality is irrelevant to every use in this code base). -/
def pyEq : JsonValue → JsonValue → Bool
  | .null, .null => true
  | .bool a, .bool b => a == b
  | .num a, .num b => a == b
  | .str a, .str b => a == b
  | .arr a, .arr b => pyEqList a b
  | .obj a, .obj b => pyEqObj a b
  | _, _ => false

def pyEqList : List JsonValue → List JsonValue → Bool
  | [], [] => true
  | a :: as, b :: bs => pyEq a b && pyEqList as bs
  | _, _ => false

def pyEqObj : List (String × JsonValue) → List (String × JsonValue) → Bool
  | [], [] => true
  | a :: as, b :: bs => a.1 == b.1 && pyEq a.2 b.2 && pyEqObj as bs
  | _, _ => false

end

/-- The single-quote character, used by the Python `repr` of strings. -/
def squote : Char := Char.ofNat 39

mutual

/-- Python `repr` of a loaded JSON value (strings are single-quoted;
lists render as `[a, b]`, dicts as key-value pairs in braces). -/
def pyRepr : JsonValue → String
  | .null => "None"
  | .bool true => "True"
  | .bool false => "False"
  | .num n => toString n
  | .str s => String.singleton squote ++ s ++ String.singleton squote
  | .arr xs => "[" ++ pyReprList xs ++ "]"
  | .obj fs => "\x7b" ++ pyReprObj fs ++ "\x7d"

def pyReprList : List JsonValue → String
  | [] => ""
  | [x] => pyRepr x
  | x :: xs => pyRepr x ++ ", " ++ pyReprList xs

def pyReprObj : List (String × JsonValue) → String
  | [] => ""
  | [kv] => String.singleton squote ++ kv.1 ++ String.singleton squote ++ ": " ++ pyRepr kv.2
  | kv :: kvs =>
      String.singleton squote ++ kv.1 ++ String.singleton squote ++ ": " ++ pyRepr kv.2
        ++ ", " ++ pyReprObj kvs

end

/-- Python `str()` of a loaded JSON value: identity on strings, `repr` on
containers, `None`/`True`/`False` spelled as Python does. -/
def pyStr (v : JsonValue) : String :=
  match v with
  | .str s => s
  | .null => "None"
  | .bool true => "True"
  | .bool false => "False"
  | .num n => toString n
  | .arr _ => pyRepr v
  | .obj _ => pyRepr v

/-- Split a character list at every occurrence of the delimiter. Used in
place of the core string splitter so that every definition in this file
reduces inside the kernel. -/
def splitChar (delim : Char) (s : String) : List String :=
  go s.toList []
where
  go : List Char → List Char → List String
    | [], acc => [String.mk acc.reverse]
    | c :: cs, acc =>
        if c == delim then String.mk acc.reverse :: go cs []
        else go cs (c :: acc)

/-- Lower-casing character by character (kernel-reducible counterpart of
the core lower-casing, adequate for the ASCII names this code handles,
which is also the extent of Python lower on them). -/
def toLowerStr (s : String) : String :=
  String.mk (s.toList.map Char.toLower)

/-- First-n-characters slice, modelling Python string slicing. -/
def strTake (s : String) (n : Nat) : String :=
  String.mk (s.toList.take n)

/-- Join with a separator, modelling Python `sep.join`. -/
def strIntercalate (sep : String) : List String → String
  | [] => ""
  | [x] => x
  | x :: xs => x ++ sep ++ strIntercalate sep xs

/-- Concatenation of a list of strings. -/
def strJoin : List String → String
  | [] => ""
  | x :: xs => x ++ strJoin xs

/-- Does the character list begin with the given pattern? -/
def startsWithChars : List Char → List Char → Bool
  | _, [] => true
  | [], _ :: _ => false
  | h :: hs, p :: ps => h == p && startsWithChars hs ps

/-- Does the character list contain the pattern as a contiguous run? -/
def containsChars : List Char → List Char → Bool
  | [], pat => pat.isEmpty
  | h :: t, pat => startsWithChars (h :: t) pat || containsChars t pat

/-- Python substring membership `sub in s`. -/
def strContains (s sub : String) : Bool :=
  containsChars s.toList sub.toList

/-- Python `in` on a loaded JSON value, which raises `TypeError` when the
value is not iterable and not a container: substring test on strings,
element membership on lists, key membership on dicts; `TypeError` on
`None`, booleans and numbers. Embedded into `Except` since it can raise. -/
def pyContains (needle : String) (v : JsonValue) : Except String Bool :=
  match v with
  | .str s => .ok (strContains s needle)
  | .arr xs => .ok (xs.any (fun x => pyEq x (.str needle)))
  | .obj fs => .ok ((fs.map Prod.fst).contains needle)
  | .num _ => .error "TypeError: argument of type int is not iterable"
  | .bool _ => .error "TypeError: argument of type bool is not iterable"
  | .null => .error "TypeError: argument of type NoneType is not iterable"

/-- Python `dict.get(key, default)` over the ordered field list (keys of a
dict loaded from JSON are unique, so first-match lookup is faithful). -/
def pyGet (fs : List (String × JsonValue)) (key : String) (dflt : JsonValue) : JsonValue :=
  (fs.lookup key).getD dflt

/-- Code-point comparison of strings, matching how Python `sorted` orders
the key strings it is applied to in `detectors.py`. -/
def strLe (a b : String) : Bool :=
  lex a.toList b.toList
where
  lex : List Char → List Char → Bool
    | [], _ => true
    | _ :: _, [] => false
    | x :: xs, y :: ys => x.toNat < y.toNat || (x == y && lex xs ys)

/-- Insertion sort by code point, modelling Python `sorted` on strings. -/
def sortStrings (l : List String) : List String :=
  l.foldr insertStr []
where
  insertStr (s : String) : List String → List String
    | [] => [s]
    | t :: ts => if strLe s t then s :: t :: ts else t :: insertStr s ts

/-- Model of `pathlib.Path(p).name`: the final path component. -/
def pathName (p : String) : String :=
  (splitChar '/' p).getLastD p

/-- Model of `pathlib.Path(p).suffix`: the extension of the final
component, dot included; empty when the last dot is leading or absent. -/
def pathSuffix (p : String) : String :=
  let n := pathName p
  let cs := n.toList
  let dotIdxs := (List.range cs.length).filter (fun i => cs.getD i ' ' == '.')
  match dotIdxs.getLast? with
  | some i => if 0 < i && i < cs.length - 1 then String.mk (cs.drop i) else ""
  | none => ""

/-- Embeds `utils.get_file_extension`: the suffix with leading dots
stripped, lower-cased. -/
def get_file_extension (file_path : String) : String :=
  toLowerStr (String.mk ((pathSuffix file_path).toList.dropWhile (fun c => c == '.')))

/-- A parsed calendar instant, modelling the `datetime.datetime` values
produced by `datetime.strptime` in `utils.parse_timestamp`. -/
structure PyDateTime where
  year : Nat
  month : Nat
  day : Nat
  hour : Nat
  minute : Nat
  second : Nat
  microsecond : Nat
deriving DecidableEq, Repr

/-- Gregorian leap-year test, as used by `datetime` for day validation. -/
def isLeapYear (y : Nat) : Bool :=
  y % 4 == 0 && (y % 100 != 0 || y % 400 == 0)

/-- Days in a month of the proleptic Gregorian calendar. -/
def daysInMonth (y m : Nat) : Nat :=
  if m == 2 then (if isLeapYear y then 29 else 28)
  else if m == 4 || m == 6 || m == 9 || m == 11 then 30
  else 31

/-- Accumulator for `strptime` fields, with the documented `strptime`
defaults (year 1900, month 1, day 1, midnight). -/
structure StrptimeAcc where
  year : Nat := 1900
  month : Nat := 1
  day : Nat := 1
  hour : Nat := 0
  minute : Nat := 0
  second : Nat := 0
  microsecond : Nat := 0

/-- Consume up to `max` leading decimal digits, returning the value read,
the digit count and the remaining characters (greedy, like the regexes
`strptime` compiles its directives to). -/
def takeDigits : Nat → List Char → Nat → Nat → (Nat × Nat × List Char)
  | 0, cs, acc, cnt => (acc, cnt, cs)
  | _ + 1, [], acc, cnt => (acc, cnt, [])
  | k + 1, c :: cs, acc, cnt =>
      if c.isDigit then takeDigits k cs (acc * 10 + (c.toNat - 48)) (cnt + 1)
      else (acc, cnt, c :: cs)

/-- Interpreter for the `strptime` format directives used in
`utils.TIMESTAMP_FORMATS` (`%Y` up to 4 digits, `%m %d %H %M %S` up to 2,
`%f` up to 6 with padding to microseconds); literal format characters must
match the input exactly and the whole input must be consumed, as
`strptime` raises on unconverted trailing data. In these five formats
every numeric directive is followed by a non-digit literal or the end of
the pattern, so greedy matching without backtracking is exact. -/
def runFormat : List Char → List Char → StrptimeAcc → Option StrptimeAcc
  | [], [], acc => some acc
  | [], _ :: _, _ => none
  | '%' :: 'Y' :: fmt, cs, acc =>
      match takeDigits 4 cs 0 0 with
      | (v, cnt, rest) => if cnt == 0 then none else runFormat fmt rest { acc with year := v }
  | '%' :: 'm' :: fmt, cs, acc =>
      match takeDigits 2 cs 0 0 with
      | (v, cnt, rest) => if cnt == 0 then none else runFormat fmt rest { acc with month := v }
  | '%' :: 'd' :: fmt, cs, acc =>
      match takeDigits 2 cs 0 0 with
      | (v, cnt, rest) => if cnt == 0 then none else runFormat fmt rest { acc with day := v }
  | '%' :: 'H' :: fmt, cs, acc =>
      match takeDigits 2 cs 0 0 with
      | (v, cnt, rest) => if cnt == 0 then none else runFormat fmt rest { acc with hour := v }
  | '%' :: 'M' :: fmt, cs, acc =>
      match takeDigits 2 cs 0 0 with
      | (v, cnt, rest) => if cnt == 0 then none else runFormat fmt rest { acc with minute := v }
  | '%' :: 'S' :: fmt, cs, acc =>
      match takeDigits 2 cs 0 0 with
      | (v, cnt, rest) => if cnt == 0 then none else runFormat fmt rest { acc with second := v }
  | '%' :: 'f' :: fmt, cs, acc =>
      match takeDigits 6 cs 0 0 with
      | (v, cnt, rest) =>
          if cnt == 0 then none
          else runFormat fmt rest { acc with microsecond := v * 10 ^ (6 - cnt) }
  | '%' :: _ :: _, _, _ => none
  | fc :: fmt, c :: cs, acc => if fc == c then runFormat fmt cs acc else none
  | _ :: _, [], _ => none

/-- Range validation performed by the `datetime` constructor, which
`strptime` calls after matching (month 1-12, day valid for the month,
hour below 24, minute and second below 60). -/
def validAcc (a : StrptimeAcc) : Bool :=
  1 ≤ a.year && a.year ≤ 9999 && 1 ≤ a.month && a.month ≤ 12 &&
    1 ≤ a.day && a.day ≤ daysInMonth a.year a.month &&
    a.hour ≤ 23 && a.minute ≤ 59 && a.second ≤ 59

/-- Model of `datetime.strptime(s, fmt)`, returning `none` where Python
raises `ValueError`. -/
def strptime (fmt s : String) : Option PyDateTime :=
  match runFormat fmt.toList s.toList {} with
  | none => none
  | some a =>
      if validAcc a then
        some ⟨a.year, a.month, a.day, a.hour, a.minute, a.second, a.microsecond⟩
      else none

/-- Embeds `utils.TIMESTAMP_FORMATS`: the fixed ordered pattern list. -/
def TIMESTAMP_FORMATS : List String :=
  ["%Y-%m-%dT%H:%M:%S.%fZ",
   "%Y-%m-%dT%H:%M:%SZ",
   "%Y-%m-%d %H:%M:%S",
   "%Y-%m-%d",
   "%Y-%m-%dT%H:%M:%S"]

/-- First successful parse over the ordered format list; uncertain when
none matches. -/
def tryFormats : List String → String → Option PyDateTime × Bool
  | [], _ => (none, true)
  | fmt :: rest, s =>
      match strptime fmt s with
      | some d => (some d, false)
      | none => tryFormats rest s

/-- Embeds `utils.parse_timestamp`: `None` or the empty string give
`(None, True)`; otherwise the formats are tried in order and the first
success is returned with the uncertainty flag cleared. -/
def parse_timestamp (timestamp_str : Option String) : Option PyDateTime × Bool :=
  if !strTruthy timestamp_str then (none, true)
  else tryFormats TIMESTAMP_FORMATS (timestamp_str.getD "")

/-- Truncation to a 32-bit word. -/
def w32 (n : Nat) : Nat := n % 4294967296

/-- 32-bit right rotation. -/
def rotr32 (n x : Nat) : Nat := w32 ((x >>> n) ||| (x <<< (32 - n)))

/-- The SHA-256 round constants. -/
def shaK : List Nat :=
  [1116352408, 1899447441, 3049323471, 3921009573, 961987163,
   1508970993, 2453635748, 2870763221, 3624381080, 310598401,
   607225278, 1426881987, 1925078388, 2162078206, 2614888103,
   3248222580, 3835390401, 4022224774, 264347078, 604807628,
   770255983, 1249150122, 1555081692, 1996064986, 2554220882,
   2821834349, 2952996808, 3210313671, 3336571891, 3584528711,
   113926993, 338241895, 666307205, 773529912, 1294757372,
   1396182291, 1695183700, 1986661051, 2177026350, 2456956037,
   2730485921, 2820302411, 3259730800, 3345764771, 3516065817,
   3600352804, 4094571909, 275423344, 430227734, 506948616,
   659060556, 883997877, 958139571, 1322822218, 1537002063,
   1747873779, 1955562222, 2024104815, 2227730452, 2361852424,
   2428436474, 2756734187, 3204031479, 3329325298]

/-- The SHA-256 initial hash state. -/
def shaH0 : List Nat :=
  [1779033703, 3144134277, 1013904242, 2773480762,
   1359893119, 2600822924, 528734635, 1541459225]

/-- Big-endian byte rendering of a number on the given byte width. -/
def beBytes : Nat → Nat → List Nat
  | 0, _ => []
  | k + 1, n => (n >>> (8 * k)) % 256 :: beBytes k n

/-- SHA-256 padding: append the 0x80 marker, zero bytes up to 56 mod 64,
then the bit length on 8 big-endian bytes. -/
def shaPad (msg : List Nat) : List Nat :=
  let l := msg.length
  let z := (64 - ((l + 9) % 64)) % 64
  msg ++ 0x80 :: List.replicate z 0 ++ beBytes 8 (8 * l)

/-- Gather bytes into big-endian 32-bit words. -/
def bytesToWords : List Nat → List Nat
  | b1 :: b2 :: b3 :: b4 :: rest => (((b1 * 256 + b2) * 256 + b3) * 256 + b4) :: bytesToWords rest
  | _ => []

/-- Split the word stream into 16-word blocks. -/
def chunk16 : List Nat → List (List Nat)
  | [] => []
  | w :: ws => (w :: ws.take 15) :: chunk16 (ws.drop 15)
termination_by ws => ws.length
decreasing_by simp [List.length_drop]; omega

/-- Extend a 16-word block with the given number of schedule words. -/
def extendSchedule : List Nat → Nat → List Nat
  | ws, 0 => ws
  | ws, k + 1 =>
      let n := ws.length
      let s0 := let x := ws.getD (n - 15) 0; rotr32 7 x ^^^ rotr32 18 x ^^^ (x >>> 3)
      let s1 := let x := ws.getD (n - 2) 0; rotr32 17 x ^^^ rotr32 19 x ^^^ (x >>> 10)
      extendSchedule (ws ++ [w32 (ws.getD (n - 16) 0 + s0 + ws.getD (n - 7) 0 + s1)]) k

/-- One SHA-256 compression round on the eight-word working state. -/
def compressStep (st : List Nat) (kw : Nat × Nat) : List Nat :=
  match st with
  | [a, b, c, d, e, f, g, h] =>
      let chEFG := g ^^^ (e &&& (f ^^^ g))
      let majABC := (a &&& b) ^^^ (c &&& (a ^^^ b))
      let sumE := rotr32 6 e ^^^ rotr32 11 e ^^^ rotr32 25 e
      let sumA := rotr32 2 a ^^^ rotr32 13 a ^^^ rotr32 22 a
      let t1 := w32 (h + sumE + chEFG + kw.1 + kw.2)
      let t2 := w32 (sumA + majABC)
      [w32 (t1 + t2), a, b, c, w32 (d + t1), e, f, g]
  | _ => st

/-- Process one 16-word block against the running hash state. -/
def compressBlock (hs : List Nat) (block : List Nat) : List Nat :=
  let ws := extendSchedule block 48
  let st := (shaK.zip ws).foldl compressStep hs
  (hs.zip st).map (fun p => w32 (p.1 + p.2))

/-- SHA-256 of a byte list, as the list of eight 32-bit state words. -/
def sha256Words (msg : List Nat) : List Nat :=
  (chunk16 (bytesToWords (shaPad msg))).foldl compressBlock shaH0

/-- Lower-case hexadecimal digit. -/
def hexDigit (n : Nat) : Char :=
  if n < 10 then Char.ofNat (48 + n) else Char.ofNat (87 + n)

/-- Eight-digit hexadecimal rendering of a 32-bit word. -/
def hexWord (w : Nat) : String :=
  String.mk ((List.range 8).map (fun i => hexDigit ((w >>> (28 - 4 * i)) &&& 15)))

/-- The SHA-256 hex digest of a byte list, as `hashlib` renders it. -/
def sha256Hex (msg : List Nat) : String :=
  strJoin ((sha256Words msg).map hexWord)

/-- UTF-8 encoding of one code point, modelling Python `str.encode()`. -/
def utf8Char (c : Char) : List Nat :=
  let n := c.toNat
  if n < 0x80 then [n]
  else if n < 0x800 then [0xc0 ||| (n >>> 6), 0x80 ||| (n &&& 0x3f)]
  else if n < 0x10000 then
    [0xe0 ||| (n >>> 12), 0x80 ||| ((n >>> 6) &&& 0x3f), 0x80 ||| (n &&& 0x3f)]
  else
    [0xf0 ||| (n >>> 18), 0x80 ||| ((n >>> 12) &&& 0x3f),
     0x80 ||| ((n >>> 6) &&& 0x3f), 0x80 ||| (n &&& 0x3f)]

/-- UTF-8 encoding of a string. -/
def utf8Encode (s : String) : List Nat :=
  s.toList.flatMap utf8Char

/-- Embeds `utils.generate_record_id`: the first 16 hex digits of the
SHA-256 digest of `file_path ++ ":" ++ str(index)`. -/
def generate_record_id (file_path : String) (index : Nat) : String :=
  let content := file_path ++ ":" ++ toString index
  strTake (sha256Hex (utf8Encode content)) 16

/-- Embeds `utils.MAX_RAW_CONTENT_LENGTH`. -/
def MAX_RAW_CONTENT_LENGTH : Nat := 1000

/-- Embeds `schemas.NormalizedRecord`. Raw data is a Python dict of
arbitrary values, modelled like JSON objects; `detected_format` is an
optional string as in the dataclass. -/
structure NormalizedRecord where
  record_id : String
  source_file : String
  content_type : String
  source_type : String
  title : Option String := none
  timestamp : Option PyDateTime := none
  timestamp_uncertain : Bool := false
  channel : Option String := none
  url : Option String := none
  raw_data : List (String × JsonValue) := []
  detected_format : Option String := none
  parsing_notes : List String := []

/-- Embeds `schemas.FileClassification`. -/
structure FileClassification where
  file_path : String
  file_type : String
  content_likely : String
  confidence : String
  notes : List String := []
deriving DecidableEq, Repr

/-- Model of a file on disk, at the boundary with the standard library:
`read` is the outcome of opening and reading the file as UTF-8 text (an
`Except.error` carries the message of the raised `OSError`), and `json`
is the outcome of `json.load` on the file (`none` models both an
unreadable file and invalid JSON, the exact cases in which
`utils.safe_json_load` returns `None`). -/
structure FileData where
  read : Except String String
  json : Option JsonValue

/-- Embeds `utils.safe_json_load`: load JSON, `None` on any failure. -/
def safe_json_load (fd : FileData) : Option JsonValue :=
  fd.json

/-- Embeds the extension table of `FileDetector._detect_file_type`. -/
def type_map : List (String × String) :=
  [("json", "json"), ("csv", "csv"), ("html", "html"), ("htm", "html"), ("txt", "txt")]

/-- Embeds `FileDetector._detect_file_type`: map the extension through the
table, note unknown non-empty extensions. Returns the detected type and
the notes it appends. -/
def detect_file_type (file_path : String) : String × List String :=
  let ext := get_file_extension file_path
  let detected := (type_map.lookup ext).getD "unknown"
  if detected == "unknown" && ext != "" then
    (detected, ["Unknown extension: ." ++ ext])
  else (detected, [])

/-- Embeds `FileDetector._classify_dict_keys`: ordered key-pattern rules.
The check `products in obj.get(header, )` applies Python `in` directly to
the raw value, so it can raise `TypeError`; the embedding therefore lives
in `Except`. Returns content, confidence and appended notes. -/
def classify_dict_keys (fields : List (String × JsonValue)) :
    Except String (String × String × List String) := do
  let keys := fields.map Prod.fst
  if keys.contains "title" && keys.contains "titleUrl" then
    return ("watch-event", "high", [])
  if keys.contains "header" && keys.contains "title" then
    let b ← pyContains "products" (pyGet fields "header" (.str ""))
    if b then
      return ("watch-event", "medium", [])
  if keys.contains "time" && keys.contains "title" then
    return ("media-event", "medium", [])
  if keys.contains "timestamp" || keys.contains "time" || keys.contains "date" then
    return ("timestamped-event", "low", [])
  return ("unknown", "low",
    ["Unrecognized JSON structure with keys: [" ++
       strIntercalate ", " (sortStrings (keys.take 5)) ++ "]"])

/-- Embeds `FileDetector._classify_json_structure`: empty arrays are
`empty`/`high`; arrays defer to the key rules on their first element when
it is a dict; single dicts defer to the key rules; anything else is
`unknown`/`low` with a note. -/
def classify_json_structure (data : JsonValue) :
    Except String (String × String × List String) :=
  match data with
  | .arr [] => .ok ("empty", "high", ["Empty JSON array"])
  | .arr (sample :: _) =>
      match sample with
      | .obj fields => classify_dict_keys fields
      | _ => .ok ("unknown", "low", ["Unexpected JSON structure"])
  | .obj fields => classify_dict_keys fields
  | _ => .ok ("unknown", "low", ["Unexpected JSON structure"])

/-- Embeds `FileDetector._classify_content`: filename substring rules
first, then, for JSON files whose loaded value is truthy, the structural
rules; otherwise `unknown`/`low` with a note. -/
def classify_content (file_path : String) (fd : FileData) (file_type : String) :
    Except String (String × String × List String) :=
  let filename_lower := toLowerStr (pathName file_path)
  if strContains filename_lower "watch" || strContains filename_lower "history" then
    if strContains filename_lower "music" then .ok ("music-history", "medium", [])
    else .ok ("watch-history", "medium", [])
  else if strContains filename_lower "comment" then .ok ("comments", "medium", [])
  else if strContains filename_lower "search" then .ok ("search-history", "medium", [])
  else if strContains filename_lower "subscription" then .ok ("subscriptions", "medium", [])
  else if strContains filename_lower "playlist" then .ok ("playlists", "medium", [])
  else
    let structural : Option (Except String (String × String × List String)) :=
      if file_type == "json" then
        match safe_json_load fd with
        | some data => if truthy data then some (classify_json_structure data) else none
        | none => none
      else none
    match structural with
    | some r => r
    | none =>
        .ok ("unknown", "low", ["Could not determine content type from filename or structure"])

/-- Embeds `FileDetector.detect`: detect the file type, classify the
content, and assemble the classification with the accumulated notes. The
result is in `Except` because the structural inspection can raise. -/
def detect (file_path : String) (fd : FileData) : Except String FileClassification :=
  let (file_type, notes1) := detect_file_type file_path
  match classify_content file_path fd file_type with
  | .error e => .error e
  | .ok (content_likely, confidence, notes2) =>
      .ok ⟨file_path, file_type, content_likely, confidence, notes1 ++ notes2⟩

/-- The double-quote character of the default CSV dialect. -/
def dquote : Char := Char.ofNat 34

/-- State of the CSV field scanner: inside an unquoted field, inside a
quoted field, or just past a quote seen inside a quoted field. -/
inductive CsvMode where
  | plain : CsvMode
  | quoted : CsvMode
  | closing : CsvMode

/-- Field splitting for one CSV line in the comma dialect with
double-quote quoting (the `excel` fallback dialect of
`Normalizer._normalize_csv`; for the comma-separated inputs of the
claims, the sniffed dialect coincides with it). A doubled quote inside a
quoted field is a literal quote; in non-strict mode characters after a
closing quote are appended to the field. -/
def splitFields (mode : CsvMode) (acc : String) : List Char → List String
  | [] => [acc]
  | c :: cs =>
      match mode with
      | .quoted =>
          if c == dquote then splitFields .closing acc cs
          else splitFields .quoted (acc.push c) cs
      | .closing =>
          if c == dquote then splitFields .quoted (acc.push dquote) cs
          else if c == ',' then acc :: splitFields .plain "" cs
          else splitFields .plain (acc.push c) cs
      | .plain =>
          if c == ',' then acc :: splitFields .plain "" cs
          else if c == dquote && acc == "" then splitFields .quoted acc cs
          else splitFields .plain (acc.push c) cs

/-- One CSV line as a list of fields; a blank line yields the empty row,
as `csv.reader` does. -/
def parseCsvLine (line : String) : List String :=
  if line == "" then [] else splitFields .plain "" line.toList

/-- Model of `csv.DictReader` over the file content: the first line is the
header, every following non-empty row is zipped with it into an ordered
dict. Newlines embedded in quoted fields and ragged rows (restkey and
restval handling) are outside the modelled fragment; no claim involves
them. -/
def dictReader (content : String) : List (List (String × String)) :=
  match splitChar '\n' content with
  | [] => []
  | headerLine :: rest =>
      let header := parseCsvLine headerLine
      (rest.map parseCsvLine).filterMap
        (fun row => if row.isEmpty then none else some (header.zip row))

/-- Embeds `Normalizer._extract_field`: try candidate keys in order, skip
missing or falsy values; for a non-empty list value use the `name` of a
leading dict when present, otherwise join the stringified elements. -/
def extract_field (obj : List (String × JsonValue)) : List String → Option String
  | [] => none
  | key :: rest =>
      match obj.lookup key with
      | some value =>
          if truthy value then
            match value with
            | .arr (v0 :: vs) =>
                (match v0 with
                 | .obj f0 =>
                     if (f0.map Prod.fst).contains "name" then
                       some (pyStr (pyGet f0 "name" .null))
                     else some (strIntercalate ", " ((v0 :: vs).map pyStr))
                 | _ => some (strIntercalate ", " ((v0 :: vs).map pyStr)))
            | _ => some (pyStr value)
          else extract_field obj rest
      | none => extract_field obj rest

/-- Lower-cased copy of the row keys, as built by the dict comprehension
in `Normalizer._extract_field_case_insensitive`; when two keys collide
after lowering, the later entry overwrites the earlier one, hence the
reversed lookup below. -/
def lowerKeys (row : List (String × String)) : List (String × String) :=
  row.map (fun kv => (toLowerStr kv.1, kv.2))

/-- Embeds `Normalizer._extract_field_case_insensitive`: candidate keys in
order against the lower-cased dict, skipping missing or empty values. -/
def extract_field_case_insensitive (row : List (String × String)) : List String → Option String
  | [] => none
  | key :: rest =>
      match (lowerKeys row).reverse.lookup (toLowerStr key) with
      | some v =>
          if v != "" then some v else extract_field_case_insensitive row rest
      | none => extract_field_case_insensitive row rest

/-- Embeds `Normalizer._infer_content_type`: a fixed mapping from the
classification hint (the object argument is unused in the source). -/
def infer_content_type (_obj : List (String × JsonValue)) (classification : FileClassification) :
    String :=
  let content_hint := classification.content_likely
  if content_hint == "watch-history" || content_hint == "watch-event" then "watch-event"
  else if content_hint == "music-history" then "music-video"
  else if content_hint == "comments" then "comment"
  else if content_hint == "search-history" then "search"
  else if content_hint == "media-event" || content_hint == "timestamped-event" then "video"
  else "unknown"

/-- Embeds `Normalizer._infer_source_type`: `channel` when a channel was
extracted, `platform-surface` when the stringified `header` field
contains `products`, otherwise `unknown` (the argument is always a dict
at both call sites, so the isinstance guard always holds). -/
def infer_source_type (obj : List (String × JsonValue)) (channel : Option String) : String :=
  if strTruthy channel then "channel"
  else if strContains (toLowerStr (pyStr (pyGet obj "header" (.str "")))) "products" then
    "platform-surface"
  else "unknown"

/-- A CSV row viewed as a Python dict of string values, as passed to the
shared inference helpers. -/
def rowToJson (row : List (String × String)) : List (String × JsonValue) :=
  row.map (fun kv => (kv.1, JsonValue.str kv.2))

/-- Embeds `Normalizer._normalize_json_object`. -/
def normalize_json_object (obj : List (String × JsonValue)) (file_path : String)
    (index : Nat) (classification : FileClassification) : NormalizedRecord :=
  let record_id := generate_record_id file_path index
  let title := extract_field obj ["title", "name", "header"]
  let timestamp_str := extract_field obj ["timestamp", "time", "date", "created_at", "createdAt"]
  let ts := if strTruthy timestamp_str then parse_timestamp timestamp_str else (none, true)
  let channel := extract_field obj ["channel", "channelName", "subtitles", "author"]
  let url := extract_field obj ["url", "titleUrl", "link", "href"]
  let content_type := infer_content_type obj classification
  let source_type := infer_source_type obj channel
  let notes := if ts.2 then ["Timestamp could not be parsed or is missing"] else []
  { record_id := record_id, source_file := file_path, content_type := content_type,
    source_type := source_type, title := title, timestamp := ts.1,
    timestamp_uncertain := ts.2, channel := channel, url := url, raw_data := obj,
    detected_format := some "json", parsing_notes := notes }

/-- Embeds `Normalizer._normalize_csv_row`. -/
def normalize_csv_row (row : List (String × String)) (file_path : String)
    (index : Nat) (classification : FileClassification) : NormalizedRecord :=
  let record_id := generate_record_id file_path index
  let title := extract_field_case_insensitive row ["title", "name", "video title"]
  let timestamp_str := extract_field_case_insensitive row ["timestamp", "time", "date"]
  let ts := if strTruthy timestamp_str then parse_timestamp timestamp_str else (none, true)
  let channel := extract_field_case_insensitive row ["channel", "channel name", "artist"]
  let url := extract_field_case_insensitive row ["url", "link", "video url"]
  let content_type := infer_content_type (rowToJson row) classification
  let source_type := infer_source_type (rowToJson row) channel
  let notes := if ts.2 then ["Timestamp could not be parsed or is missing"] else []
  { record_id := record_id, source_file := file_path, content_type := content_type,
    source_type := source_type, title := title, timestamp := ts.1,
    timestamp_uncertain := ts.2, channel := channel, url := url,
    raw_data := rowToJson row, detected_format := some "csv", parsing_notes := notes }

/-- Embeds `Normalizer._create_error_record`. -/
def create_error_record (file_path : String) (classification : FileClassification)
    (error : String) : List NormalizedRecord :=
  [{ record_id := generate_record_id file_path 0, source_file := file_path,
     content_type := "unknown", source_type := "unknown",
     raw_data := [("error", .str error)],
     detected_format := some classification.file_type,
     parsing_notes := ["Parsing error: " ++ error] }]

/-- Embeds `Normalizer._normalize_json`: a parse failure yields the error
record; each dict element of a top-level array yields one record at its
array position; a top-level dict yields one record at index 0; any other
top-level value yields no records. -/
def normalize_json (file_path : String) (fd : FileData)
    (classification : FileClassification) : List NormalizedRecord :=
  match safe_json_load fd with
  | none => create_error_record file_path classification "Failed to parse JSON"
  | some data =>
      match data with
      | .arr items =>
          items.enum.filterMap (fun p =>
            match p.2 with
            | .obj fields => some (normalize_json_object fields file_path p.1 classification)
            | _ => none)
      | .obj fields => [normalize_json_object fields file_path 0 classification]
      | _ => []

/-- Embeds `Normalizer._normalize_csv`: a read failure yields the error
record; otherwise every data row of the dict reader yields one record at
its row position. -/
def normalize_csv (file_path : String) (fd : FileData)
    (classification : FileClassification) : List NormalizedRecord :=
  match fd.read with
  | .error e => create_error_record file_path classification e
  | .ok content =>
      (dictReader content).enum.map (fun p =>
        normalize_csv_row p.2 file_path p.1 classification)

/-- Embeds `Normalizer._normalize_html`: one record holding the first
`MAX_RAW_CONTENT_LENGTH` characters of the content; a read failure is
absorbed into the stored text. -/
def normalize_html (file_path : String) (fd : FileData)
    (_classification : FileClassification) : List NormalizedRecord :=
  let record_id := generate_record_id file_path 0
  let content := match fd.read with
    | .ok c => c
    | .error e => "Error reading file: " ++ e
  [{ record_id := record_id, source_file := file_path, content_type := "unknown",
     source_type := "unknown",
     raw_data := [("html_content", .str (strTake content MAX_RAW_CONTENT_LENGTH))],
     detected_format := some "html",
     parsing_notes := ["HTML files are not fully parsed - stored as unknown"] }]

/-- Embeds `Normalizer._normalize_txt`, the text twin of the HTML case. -/
def normalize_txt (file_path : String) (fd : FileData)
    (_classification : FileClassification) : List NormalizedRecord :=
  let record_id := generate_record_id file_path 0
  let content := match fd.read with
    | .ok c => c
    | .error e => "Error reading file: " ++ e
  [{ record_id := record_id, source_file := file_path, content_type := "unknown",
     source_type := "unknown",
     raw_data := [("text_content", .str (strTake content MAX_RAW_CONTENT_LENGTH))],
     detected_format := some "txt",
     parsing_notes := ["Text files are not fully parsed - stored as unknown"] }]

/-- Embeds `Normalizer._normalize_unknown`. -/
def normalize_unknown (file_path : String)
    (classification : FileClassification) : List NormalizedRecord :=
  [{ record_id := generate_record_id file_path 0, source_file := file_path,
     content_type := "unknown", source_type := "unknown",
     raw_data := [("file_type", .str classification.file_type)],
     detected_format := some "unknown",
     parsing_notes := ["Unknown file type: " ++ classification.file_type] }]

/-- Embeds `Normalizer.normalize_file`: dispatch on the classified file
type. The catch-all exception handler of the source corresponds to the
explicit failure legs of the format handlers (`safe_json_load` returning
`None`, a failing read), which are the modelled ways the per-format code
can fail; every leg of the dispatch is total. -/
def normalize_file (file_path : String) (fd : FileData)
    (classification : FileClassification) : List NormalizedRecord :=
  let file_type := classification.file_type
  if file_type == "json" then normalize_json file_path fd classification
  else if file_type == "csv" then normalize_csv file_path fd classification
  else if file_type == "html" then normalize_html file_path fd classification
  else if file_type == "txt" then normalize_txt file_path fd classification
  else normalize_unknown file_path classification

theorem record_id_njo (obj : List (String × JsonValue)) (p : String) (i : Nat)
    (cls : FileClassification) :
    (normalize_json_object obj p i cls).record_id = generate_record_id p i := by
  simp only [normalize_json_object]

theorem raw_data_njo (obj : List (String × JsonValue)) (p : String) (i : Nat)
    (cls : FileClassification) :
    (normalize_json_object obj p i cls).raw_data = obj := by
  simp only [normalize_json_object]

theorem record_id_ncr (row : List (String × String)) (p : String) (i : Nat)
    (cls : FileClassification) :
    (normalize_csv_row row p i cls).record_id = generate_record_id p i := by
  simp only [normalize_csv_row]

theorem raw_data_ncr (row : List (String × String)) (p : String) (i : Nat)
    (cls : FileClassification) :
    (normalize_csv_row row p i cls).raw_data = rowToJson row := by
  simp only [normalize_csv_row]

/-- Claim C1: for every input file and classification, normalization is a
total function of the dispatch and degrades unknown file types, JSON
parse failures and CSV read failures to a single-element record carrying
the diagnostic in its raw data together with a parsing note. -/
theorem c1_normalize_total_and_degrades :
    ∀ (p : String) (fd : FileData) (cls : FileClassification),
      (cls.file_type ∉ (["json", "csv", "html", "txt"] : List String) →
        normalize_file p fd cls =
          [{ record_id := generate_record_id p 0, source_file := p,
             content_type := "unknown", source_type := "unknown",
             raw_data := [("file_type", JsonValue.str cls.file_type)],
             detected_format := some "unknown",
             parsing_notes := ["Unknown file type: " ++ cls.file_type] }]) ∧
      (cls.file_type = "json" → fd.json = none →
        normalize_file p fd cls =
          [{ record_id := generate_record_id p 0, source_file := p,
             content_type := "unknown", source_type := "unknown",
             raw_data := [("error", JsonValue.str "Failed to parse JSON")],
             detected_format := some cls.file_type,
             parsing_notes := ["Parsing error: Failed to parse JSON"] }]) ∧
      (∀ e, cls.file_type = "csv" → fd.read = .error e →
        normalize_file p fd cls =
          [{ record_id := generate_record_id p 0, source_file := p,
             content_type := "unknown", source_type := "unknown",
             raw_data := [("error", JsonValue.str e)],
             detected_format := some cls.file_type,
             parsing_notes := ["Parsing error: " ++ e] }]) := by
  intro p fd cls
  refine ⟨?_, ?_, ?_⟩
  · intro h
    simp only [List.mem_cons, List.not_mem_nil, or_false, not_or] at h
    obtain ⟨h1, h2, h3, h4⟩ := h
    simp [normalize_file, normalize_unknown, h1, h2, h3, h4]
  · intro h1 h2
    simp [normalize_file, h1, normalize_json, safe_json_load, h2, create_error_record]
  · intro e h1 h2
    simp [normalize_file, h1, normalize_csv, h2, create_error_record]

theorem c1_witness :
    normalize_file "a.xyz" ⟨.ok "", none⟩ ⟨"a.xyz", "xyz", "unknown", "low", []⟩ =
      [{ record_id := generate_record_id "a.xyz" 0, source_file := "a.xyz",
         content_type := "unknown", source_type := "unknown",
         raw_data := [("file_type", JsonValue.str "xyz")],
         detected_format := some "unknown",
         parsing_notes := ["Unknown file type: " ++ "xyz"] }] ∧
    normalize_file "b.json" ⟨.ok "oops", none⟩ ⟨"b.json", "json", "unknown", "low", []⟩ =
      [{ record_id := generate_record_id "b.json" 0, source_file := "b.json",
         content_type := "unknown", source_type := "unknown",
         raw_data := [("error", JsonValue.str "Failed to parse JSON")],
         detected_format := some "json",
         parsing_notes := ["Parsing error: Failed to parse JSON"] }] ∧
    normalize_file "c.csv" ⟨.error "disk error", none⟩ ⟨"c.csv", "csv", "unknown", "low", []⟩ =
      [{ record_id := generate_record_id "c.csv" 0, source_file := "c.csv",
         content_type := "unknown", source_type := "unknown",
         raw_data := [("error", JsonValue.str "disk error")],
         detected_format := some "csv",
         parsing_notes := ["Parsing error: " ++ "disk error"] }] :=
  ⟨(c1_normalize_total_and_degrades "a.xyz" ⟨.ok "", none⟩
      ⟨"a.xyz", "xyz", "unknown", "low", []⟩).1 (by decide),
   (c1_normalize_total_and_degrades "b.json" ⟨.ok "oops", none⟩
      ⟨"b.json", "json", "unknown", "low", []⟩).2.1 rfl rfl,
   (c1_normalize_total_and_degrades "c.csv" ⟨.error "disk error", none⟩
      ⟨"c.csv", "csv", "unknown", "low", []⟩).2.2 "disk error" rfl rfl⟩

/-- Claim C2: evaluation of the classifier at the failing input. The class
docstring promises that classification never fails, but the structural
inspection applies the Python `in` operator to a raw `header` value, so a
JSON object whose `header` is a number makes `detect` raise `TypeError`
instead of degrading to unknown. -/
theorem c2_detect_raises_on_int_header :
    detect "data.json"
        ⟨.ok "\x7b\"header\": 1, \"title\": \"x\"\x7d",
          some (.obj [("header", .num 1), ("title", .str "x")])⟩ =
      .error "TypeError: argument of type int is not iterable" := by
  rfl

/-- Claim C3, counterexample: a JSON file holding the empty array
normalizes to the empty record list, so normalize can return an empty
sequence. -/
theorem c3_counterexample :
    normalize_file "d.json" ⟨.ok "[]", some (.arr [])⟩
        ⟨"d.json", "json", "unknown", "low", []⟩ = [] := by
  rfl

/-- Claim C3, amended: normalization is total and returns at least one
record for the html, txt and unknown dispatch legs and whenever parsing
or reading fails; an empty result can arise only from a successfully
loaded JSON value or a successfully read CSV file. -/
theorem c3_amended_nonempty_except_parsed_empty :
    ∀ (p : String) (fd : FileData) (cls : FileClassification),
      ((cls.file_type = "html" ∨ cls.file_type = "txt" ∨
          cls.file_type ∉ (["json", "csv", "html", "txt"] : List String)) →
        normalize_file p fd cls ≠ []) ∧
      (normalize_file p fd cls = [] →
        (cls.file_type = "json" ∧ ∃ v, fd.json = some v) ∨
        (cls.file_type = "csv" ∧ ∃ c, fd.read = .ok c)) := by
  intro p fd cls
  constructor
  · rintro (h | h | h)
    · simp [normalize_file, h, normalize_html]
    · simp [normalize_file, h, normalize_txt]
    · simp only [List.mem_cons, List.not_mem_nil, or_false, not_or] at h
      obtain ⟨h1, h2, h3, h4⟩ := h
      simp [normalize_file, normalize_unknown, h1, h2, h3, h4]
  · intro hempty
    by_cases h1 : cls.file_type = "json"
    · left
      refine ⟨h1, ?_⟩
      cases hj : fd.json with
      | none =>
          exfalso
          simp [normalize_file, h1, normalize_json, safe_json_load, hj,
            create_error_record] at hempty
      | some v => exact ⟨v, rfl⟩
    · by_cases h2 : cls.file_type = "csv"
      · right
        refine ⟨h2, ?_⟩
        cases hr : fd.read with
        | error e =>
            exfalso
            simp [normalize_file, h1, h2, normalize_csv, hr,
              create_error_record] at hempty
        | ok c => exact ⟨c, rfl⟩
      · exfalso
        by_cases h3 : cls.file_type = "html"
        · simp [normalize_file, h1, h2, h3, normalize_html] at hempty
        · by_cases h4 : cls.file_type = "txt"
          · simp [normalize_file, h1, h2, h3, h4, normalize_txt] at hempty
          · simp [normalize_file, h1, h2, h3, h4, normalize_unknown] at hempty

theorem c3_amended_witness :
    (normalize_file "a.html" ⟨.ok "x", none⟩ ⟨"a.html", "html", "unknown", "low", []⟩ ≠ []) ∧
    (((⟨"d.json", "json", "unknown", "low", []⟩ : FileClassification).file_type = "json" ∧
        ∃ v, (⟨.ok "[]", some (.arr [])⟩ : FileData).json = some v) ∨
      ((⟨"d.json", "json", "unknown", "low", []⟩ : FileClassification).file_type = "csv" ∧
        ∃ c, (⟨.ok "[]", some (.arr [])⟩ : FileData).read = .ok c)) :=
  ⟨(c3_amended_nonempty_except_parsed_empty "a.html" ⟨.ok "x", none⟩
      ⟨"a.html", "html", "unknown", "low", []⟩).1 (Or.inl rfl),
   (c3_amended_nonempty_except_parsed_empty "d.json" ⟨.ok "[]", some (.arr [])⟩
      ⟨"d.json", "json", "unknown", "low", []⟩).2 rfl⟩

/-- Claim C4: evaluation at the failing input. An empty JSON array is
falsy in Python, so the guard in the content classifier skips the
structural inspection and the dedicated empty-array branch is
unreachable: the file classifies as unknown with low confidence, not as
empty with high confidence. Normalizing it does yield zero records, as
the claim states. -/
theorem c4_empty_array_eval :
    detect "data.json" ⟨.ok "[]", some (.arr [])⟩ =
      .ok ⟨"data.json", "json", "unknown", "low",
            ["Could not determine content type from filename or structure"]⟩ ∧
    normalize_file "data.json" ⟨.ok "[]", some (.arr [])⟩
        ⟨"data.json", "json", "unknown", "low",
          ["Could not determine content type from filename or structure"]⟩ = [] := by
  exact ⟨rfl, rfl⟩

theorem tryFormats_shape (fs : List String) (s : String) :
    (∃ d, tryFormats fs s = (some d, false)) ∨ tryFormats fs s = (none, true) := by
  induction fs with
  | nil => right; rfl
  | cons f rest ih =>
      cases h : strptime f s with
      | none => simpa [tryFormats, h] using ih
      | some d => exact Or.inl ⟨d, by simp [tryFormats, h]⟩

theorem parse_timestamp_shape (o : Option String) :
    (∃ d, parse_timestamp o = (some d, false)) ∨ parse_timestamp o = (none, true) := by
  unfold parse_timestamp
  cases hb : strTruthy o <;> simp
  · exact tryFormats_shape TIMESTAMP_FORMATS (o.getD "")

theorem njo_flags (obj : List (String × JsonValue)) (p : String) (i : Nat)
    (cls : FileClassification) :
    ((normalize_json_object obj p i cls).timestamp,
      (normalize_json_object obj p i cls).timestamp_uncertain) =
      (if strTruthy (extract_field obj ["timestamp", "time", "date", "created_at", "createdAt"])
       then parse_timestamp
        (extract_field obj ["timestamp", "time", "date", "created_at", "createdAt"])
       else (none, true)) := by
  simp only [normalize_json_object]

theorem njo_notes (obj : List (String × JsonValue)) (p : String) (i : Nat)
    (cls : FileClassification) :
    (normalize_json_object obj p i cls).parsing_notes =
      (if (normalize_json_object obj p i cls).timestamp_uncertain
       then ["Timestamp could not be parsed or is missing"] else []) := by
  simp only [normalize_json_object]

theorem ncr_flags (row : List (String × String)) (p : String) (i : Nat)
    (cls : FileClassification) :
    ((normalize_csv_row row p i cls).timestamp,
      (normalize_csv_row row p i cls).timestamp_uncertain) =
      (if strTruthy (extract_field_case_insensitive row ["timestamp", "time", "date"])
       then parse_timestamp (extract_field_case_insensitive row ["timestamp", "time", "date"])
       else (none, true)) := by
  simp only [normalize_csv_row]

theorem ncr_notes (row : List (String × String)) (p : String) (i : Nat)
    (cls : FileClassification) :
    (normalize_csv_row row p i cls).parsing_notes =
      (if (normalize_csv_row row p i cls).timestamp_uncertain
       then ["Timestamp could not be parsed or is missing"] else []) := by
  simp only [normalize_csv_row]

/-- Missing timestamp forces the uncertainty flag, for any guarded
timestamp computation of the normalizer. -/
theorem guarded_parse_coupling (o : Option String) :
    (if strTruthy o then parse_timestamp o else (none, true)).1 = none →
    (if strTruthy o then parse_timestamp o else (none, true)).2 = true := by
  cases hb : strTruthy o <;> simp
  intro h
  rcases parse_timestamp_shape o with ⟨d, hd⟩ | hd
  · rw [hd] at h; simp at h
  · rw [hd]

/-- Claim C5, counterexample: the html production path emits a record with
no timestamp whose uncertainty flag is still false (the schema default),
and whose notes carry no timestamp note. -/
theorem c5_counterexample :
    (normalize_file "a.html" ⟨.ok "hello", none⟩
        ⟨"a.html", "html", "unknown", "low", []⟩).map
        (fun r => (r.timestamp, r.timestamp_uncertain, r.parsing_notes)) =
      [(none, false, ["HTML files are not fully parsed - stored as unknown"])] := by
  rfl

/-- Claim C5, amended: on the json and csv extraction paths, a record with
an absent timestamp has the uncertainty flag set and carries the
timestamp note; the html, txt, unknown-type and error records leave the
flag at its false default despite their absent timestamps. -/
theorem c5_amended_uncertain_on_extraction_paths :
    ∀ (obj : List (String × JsonValue)) (row : List (String × String)) (p : String)
      (i : Nat) (cls : FileClassification),
      ((normalize_json_object obj p i cls).timestamp = none →
        (normalize_json_object obj p i cls).timestamp_uncertain = true ∧
        "Timestamp could not be parsed or is missing" ∈
          (normalize_json_object obj p i cls).parsing_notes) ∧
      ((normalize_csv_row row p i cls).timestamp = none →
        (normalize_csv_row row p i cls).timestamp_uncertain = true ∧
        "Timestamp could not be parsed or is missing" ∈
          (normalize_csv_row row p i cls).parsing_notes) := by
  intro obj row p i cls
  constructor
  · intro hnone
    have hf := njo_flags obj p i cls
    have h1 : (normalize_json_object obj p i cls).timestamp =
        (if strTruthy (extract_field obj ["timestamp", "time", "date", "created_at", "createdAt"])
         then parse_timestamp
          (extract_field obj ["timestamp", "time", "date", "created_at", "createdAt"])
         else (none, true)).1 := congrArg Prod.fst hf
    have h2 : (normalize_json_object obj p i cls).timestamp_uncertain =
        (if strTruthy (extract_field obj ["timestamp", "time", "date", "created_at", "createdAt"])
         then parse_timestamp
          (extract_field obj ["timestamp", "time", "date", "created_at", "createdAt"])
         else (none, true)).2 := congrArg Prod.snd hf
    have hu : (normalize_json_object obj p i cls).timestamp_uncertain = true := by
      rw [h2]
      exact guarded_parse_coupling _ (h1 ▸ hnone)
    refine ⟨hu, ?_⟩
    rw [njo_notes, hu]
    simp
  · intro hnone
    have hf := ncr_flags row p i cls
    have h1 : (normalize_csv_row row p i cls).timestamp =
        (if strTruthy (extract_field_case_insensitive row ["timestamp", "time", "date"])
         then parse_timestamp (extract_field_case_insensitive row ["timestamp", "time", "date"])
         else (none, true)).1 := congrArg Prod.fst hf
    have h2 : (normalize_csv_row row p i cls).timestamp_uncertain =
        (if strTruthy (extract_field_case_insensitive row ["timestamp", "time", "date"])
         then parse_timestamp (extract_field_case_insensitive row ["timestamp", "time", "date"])
         else (none, true)).2 := congrArg Prod.snd hf
    have hu : (normalize_csv_row row p i cls).timestamp_uncertain = true := by
      rw [h2]
      exact guarded_parse_coupling _ (h1 ▸ hnone)
    refine ⟨hu, ?_⟩
    rw [ncr_notes, hu]
    simp

theorem c5_amended_witness :
    ((normalize_json_object [("title", JsonValue.str "A")] "w.json" 0
        ⟨"w.json", "json", "unknown", "low", []⟩).timestamp_uncertain = true ∧
      "Timestamp could not be parsed or is missing" ∈
        (normalize_json_object [("title", JsonValue.str "A")] "w.json" 0
          ⟨"w.json", "json", "unknown", "low", []⟩).parsing_notes) ∧
    ((normalize_csv_row [("Title", "Song")] "c.csv" 0
        ⟨"c.csv", "csv", "unknown", "low", []⟩).timestamp_uncertain = true ∧
      "Timestamp could not be parsed or is missing" ∈
        (normalize_csv_row [("Title", "Song")] "c.csv" 0
          ⟨"c.csv", "csv", "unknown", "low", []⟩).parsing_notes) :=
  ⟨(c5_amended_uncertain_on_extraction_paths [("title", JsonValue.str "A")] [("Title", "Song")]
      "w.json" 0 ⟨"w.json", "json", "unknown", "low", []⟩).1 rfl,
   (c5_amended_uncertain_on_extraction_paths [("title", JsonValue.str "A")] [("Title", "Song")]
      "c.csv" 0 ⟨"c.csv", "csv", "unknown", "low", []⟩).2 rfl⟩

/-- Claim C6: timestamp parsing is total and deterministic; absent or
empty input and unmatched input give an absent timestamp with the
uncertainty flag set, a date-only string parses, every result is either a
parsed instant with the flag cleared or absent with the flag set, and a
string matched by the first pattern of the ordered list is returned from
that pattern. -/
theorem c6_parse_timestamp_total :
    parse_timestamp none = (none, true) ∧
    parse_timestamp (some "") = (none, true) ∧
    parse_timestamp (some "2023-01-01") = (some ⟨2023, 1, 1, 0, 0, 0, 0⟩, false) ∧
    parse_timestamp (some "not-a-date") = (none, true) ∧
    (∀ o, (∃ d, parse_timestamp o = (some d, false)) ∨ parse_timestamp o = (none, true)) ∧
    (∀ s d, strptime "%Y-%m-%dT%H:%M:%S.%fZ" s = some d →
      parse_timestamp (some s) = (some d, false)) := by
  refine ⟨rfl, rfl, rfl, rfl, parse_timestamp_shape, ?_⟩
  intro s d h
  by_cases hs : s = ""
  · subst hs
    rw [show strptime "%Y-%m-%dT%H:%M:%S.%fZ" "" = (none : Option PyDateTime) from rfl] at h
    exact Option.noConfusion h
  · have ht : strTruthy (some s) = true := by
      simp [strTruthy, hs]
    simp [parse_timestamp, ht, TIMESTAMP_FORMATS, tryFormats, h]

theorem c6_witness :
    parse_timestamp (some "2023-01-01T00:00:00.5Z") =
      (some ⟨2023, 1, 1, 0, 0, 0, 500000⟩, false) :=
  c6_parse_timestamp_total.2.2.2.2.2 "2023-01-01T00:00:00.5Z"
    ⟨2023, 1, 1, 0, 0, 0, 500000⟩ rfl

/-- Raw data of the records produced from a JSON array: exactly the field
lists of the dict elements, in order. -/
theorem json_arr_raw_data (p : String) (cls : FileClassification)
    (items : List JsonValue) : ∀ n : Nat,
    ((List.enumFrom n items).filterMap (fun q =>
        match q.2 with
        | JsonValue.obj fields => some (normalize_json_object fields p q.1 cls)
        | _ => none)).map (fun r => r.raw_data) =
      items.filterMap (fun v =>
        match v with
        | JsonValue.obj fs => some fs
        | _ => none) := by
  induction items with
  | nil => intro n; rfl
  | cons v rest ih =>
      intro n
      cases v <;> simp [List.enumFrom, List.filterMap_cons, ih (n + 1), raw_data_njo]

/-- Raw data of the records produced from CSV rows: exactly the rows,
embedded as string dicts, in order. -/
theorem csv_rows_raw_data (p : String) (cls : FileClassification)
    (rows : List (List (String × String))) : ∀ n : Nat,
    (((List.enumFrom n rows).map (fun q => normalize_csv_row q.2 p q.1 cls)).map
        (fun r => r.raw_data)) = rows.map rowToJson := by
  induction rows with
  | nil => intro n; rfl
  | cons row rest ih =>
      intro n
      simp [List.enumFrom, ih (n + 1), raw_data_ncr]

/-- Claim C7: raw data of every record produced from a parsed JSON object
or CSV row reproduces that object or row verbatim, and for the
unstructured html and txt formats it holds the first 1000 characters of
the raw content. -/
theorem c7_raw_data_round_trip :
    ∀ (p : String) (fd : FileData) (cls : FileClassification),
      (∀ items, cls.file_type = "json" → fd.json = some (.arr items) →
        (normalize_file p fd cls).map (fun r => r.raw_data) =
          items.filterMap (fun v =>
            match v with
            | JsonValue.obj fs => some fs
            | _ => none)) ∧
      (∀ fs, cls.file_type = "json" → fd.json = some (.obj fs) →
        (normalize_file p fd cls).map (fun r => r.raw_data) = [fs]) ∧
      (∀ c, cls.file_type = "csv" → fd.read = .ok c →
        (normalize_file p fd cls).map (fun r => r.raw_data) =
          (dictReader c).map rowToJson) ∧
      (∀ c, cls.file_type = "html" → fd.read = .ok c →
        (normalize_file p fd cls).map (fun r => r.raw_data) =
          [[("html_content", JsonValue.str (strTake c 1000))]]) ∧
      (∀ c, cls.file_type = "txt" → fd.read = .ok c →
        (normalize_file p fd cls).map (fun r => r.raw_data) =
          [[("text_content", JsonValue.str (strTake c 1000))]]) := by
  intro p fd cls
  refine ⟨?_, ?_, ?_, ?_, ?_⟩
  · intro items h1 h2
    simp only [normalize_file, h1]
    simp only [normalize_json, safe_json_load, h2]
    simpa [List.enum] using json_arr_raw_data p cls items 0
  · intro fs h1 h2
    simp only [normalize_file, h1]
    simp [normalize_json, safe_json_load, h2, raw_data_njo]
  · intro c h1 h2
    simp only [normalize_file, h1]
    have hne : ¬("csv" == "json") = true := by decide
    simp only [if_neg hne, if_pos (by decide : ("csv" == "csv") = true)]
    simp only [normalize_csv, h2]
    simpa [List.enum] using csv_rows_raw_data p cls (dictReader c) 0
  · intro c h1 h2
    simp only [normalize_file, h1]
    simp [normalize_html, h2, MAX_RAW_CONTENT_LENGTH]
  · intro c h1 h2
    simp only [normalize_file, h1]
    simp [normalize_txt, h2, MAX_RAW_CONTENT_LENGTH]

theorem c7_witness :
    ((normalize_file "w.json"
        ⟨.ok "x", some (.arr [.obj [("a", JsonValue.str "b")], .num 3])⟩
        ⟨"w.json", "json", "unknown", "low", []⟩).map (fun r => r.raw_data) =
      [[("a", JsonValue.str "b")]]) ∧
    ((normalize_file "o.json" ⟨.ok "x", some (.obj [("k", JsonValue.str "v")])⟩
        ⟨"o.json", "json", "unknown", "low", []⟩).map (fun r => r.raw_data) =
      [[("k", JsonValue.str "v")]]) ∧
    ((normalize_file "c.csv" ⟨.ok "A,B\none,two\n", none⟩
        ⟨"c.csv", "csv", "unknown", "low", []⟩).map (fun r => r.raw_data) =
      [[("A", JsonValue.str "one"), ("B", JsonValue.str "two")]]) ∧
    ((normalize_file "h.html" ⟨.ok "hello", none⟩
        ⟨"h.html", "html", "unknown", "low", []⟩).map (fun r => r.raw_data) =
      [[("html_content", JsonValue.str "hello")]]) ∧
    ((normalize_file "t.txt" ⟨.ok "note", none⟩
        ⟨"t.txt", "txt", "unknown", "low", []⟩).map (fun r => r.raw_data) =
      [[("text_content", JsonValue.str "note")]]) :=
  ⟨((c7_raw_data_round_trip "w.json"
        ⟨.ok "x", some (.arr [.obj [("a", JsonValue.str "b")], .num 3])⟩
        ⟨"w.json", "json", "unknown", "low", []⟩).1
      [.obj [("a", JsonValue.str "b")], .num 3] rfl rfl).trans (by rfl),
   ((c7_raw_data_round_trip "o.json" ⟨.ok "x", some (.obj [("k", JsonValue.str "v")])⟩
        ⟨"o.json", "json", "unknown", "low", []⟩).2.1
      [("k", JsonValue.str "v")] rfl rfl).trans (by rfl),
   ((c7_raw_data_round_trip "c.csv" ⟨.ok "A,B\none,two\n", none⟩
        ⟨"c.csv", "csv", "unknown", "low", []⟩).2.2.1 "A,B\none,two\n" rfl rfl).trans (by rfl),
   ((c7_raw_data_round_trip "h.html" ⟨.ok "hello", none⟩
        ⟨"h.html", "html", "unknown", "low", []⟩).2.2.2.1 "hello" rfl rfl).trans (by rfl),
   ((c7_raw_data_round_trip "t.txt" ⟨.ok "note", none⟩
        ⟨"t.txt", "txt", "unknown", "low", []⟩).2.2.2.2 "note" rfl rfl).trans (by rfl)⟩

/-- Record identifiers of the records produced from an array of JSON
objects: the in-file index sequence mapped through the id generator,
independent of the object contents and of the classification. -/
theorem json_arr_record_ids (p : String) (cls : FileClassification)
    (objs : List (List (String × JsonValue))) : ∀ n : Nat,
    ((List.enumFrom n (objs.map JsonValue.obj)).filterMap (fun q =>
        match q.2 with
        | JsonValue.obj fields => some (normalize_json_object fields p q.1 cls)
        | _ => none)).map (fun r => r.record_id) =
      (List.range objs.length).map (fun i => generate_record_id p (n + i)) := by
  induction objs with
  | nil => intro n; rfl
  | cons fs rest ih =>
      intro n
      simp only [List.map_cons, List.enumFrom, List.filterMap_cons, List.map_cons,
        record_id_njo, List.length_cons, List.range_succ_eq_map, List.map_map]
      refine congrArg₂ _ (by rw [Nat.add_zero]) ?_
      rw [ih (n + 1)]
      refine List.map_congr_left ?_
      intro i _
      simp only [Function.comp, Nat.succ_eq_add_one]
      exact congrArg (generate_record_id p) (by omega)

/-- Claim C8: the record id of each produced record is a pure function of
the source file path and the index within the file alone: over a JSON
array of objects the id list equals the index range mapped through the
id generator, and two normalization runs over files with the same path
and the same number of records produce character-for-character identical
id lists regardless of record contents and classification. -/
theorem c8_record_ids_deterministic :
    ∀ (p : String) (fd fd2 : FileData) (cls cls2 : FileClassification)
      (objs objs2 : List (List (String × JsonValue))),
      cls.file_type = "json" → fd.json = some (.arr (objs.map JsonValue.obj)) →
      ((normalize_file p fd cls).map (fun r => r.record_id) =
        (List.range objs.length).map (fun i => generate_record_id p i)) ∧
      (cls2.file_type = "json" → fd2.json = some (.arr (objs2.map JsonValue.obj)) →
        objs.length = objs2.length →
        (normalize_file p fd cls).map (fun r => r.record_id) =
          (normalize_file p fd2 cls2).map (fun r => r.record_id)) := by
  have main : ∀ (p : String) (fd : FileData) (cls : FileClassification)
      (objs : List (List (String × JsonValue))),
      cls.file_type = "json" → fd.json = some (.arr (objs.map JsonValue.obj)) →
      (normalize_file p fd cls).map (fun r => r.record_id) =
        (List.range objs.length).map (fun i => generate_record_id p i) := by
    intro p fd cls objs h1 h2
    simp only [normalize_file, h1]
    simp only [normalize_json, safe_json_load, h2]
    simpa [List.enum] using json_arr_record_ids p cls objs 0
  intro p fd fd2 cls cls2 objs objs2 h1 h2
  refine ⟨main p fd cls objs h1 h2, ?_⟩
  intro h3 h4 hlen
  rw [main p fd cls objs h1 h2, main p fd2 cls2 objs2 h3 h4, hlen]

theorem c8_witness :
    ((normalize_file "w.json"
        ⟨.ok "x", some (.arr [JsonValue.obj [("title", JsonValue.str "A")],
                              JsonValue.obj []])⟩
        ⟨"w.json", "json", "watch-history", "medium", []⟩).map (fun r => r.record_id) =
      (List.range 2).map (fun i => generate_record_id "w.json" i)) ∧
    ((normalize_file "w.json"
        ⟨.ok "x", some (.arr [JsonValue.obj [("title", JsonValue.str "A")],
                              JsonValue.obj []])⟩
        ⟨"w.json", "json", "watch-history", "medium", []⟩).map (fun r => r.record_id) =
      (normalize_file "w.json"
        ⟨.ok "y", some (.arr [JsonValue.obj [("zzz", JsonValue.num 7)],
                              JsonValue.obj [("q", JsonValue.null)]])⟩
        ⟨"w.json", "json", "unknown", "low", []⟩).map (fun r => r.record_id)) :=
  ⟨(c8_record_ids_deterministic "w.json"
      ⟨.ok "x", some (.arr [JsonValue.obj [("title", JsonValue.str "A")], JsonValue.obj []])⟩
      ⟨.ok "y", some (.arr [JsonValue.obj [("zzz", JsonValue.num 7)],
                            JsonValue.obj [("q", JsonValue.null)]])⟩
      ⟨"w.json", "json", "watch-history", "medium", []⟩
      ⟨"w.json", "json", "unknown", "low", []⟩
      [[("title", JsonValue.str "A")], []]
      [[("zzz", JsonValue.num 7)], [("q", JsonValue.null)]] rfl rfl).1,
   (c8_record_ids_deterministic "w.json"
      ⟨.ok "x", some (.arr [JsonValue.obj [("title", JsonValue.str "A")], JsonValue.obj []])⟩
      ⟨.ok "y", some (.arr [JsonValue.obj [("zzz", JsonValue.num 7)],
                            JsonValue.obj [("q", JsonValue.null)]])⟩
      ⟨"w.json", "json", "watch-history", "medium", []⟩
      ⟨"w.json", "json", "unknown", "low", []⟩
      [[("title", JsonValue.str "A")], []]
      [[("zzz", JsonValue.num 7)], [("q", JsonValue.null)]] rfl rfl).2 rfl rfl rfl⟩

/-- Claim C9: filename heuristics take precedence over structural
inspection: when the lower-cased filename matches one of the substring
rules, the classification does not depend on the file contents at all
and carries medium confidence; in particular a JSON file named
watch-history.json classifies as watch-history regardless of its keys. -/
theorem c9_filename_heuristics_precedence :
    ∀ (p : String) (fd fd2 : FileData),
      (strContains (toLowerStr (pathName p)) "watch" = true ∨
       strContains (toLowerStr (pathName p)) "history" = true ∨
       strContains (toLowerStr (pathName p)) "comment" = true ∨
       strContains (toLowerStr (pathName p)) "search" = true ∨
       strContains (toLowerStr (pathName p)) "subscription" = true ∨
       strContains (toLowerStr (pathName p)) "playlist" = true) →
      detect p fd = detect p fd2 ∧
      (∃ c, detect p fd = .ok c ∧ c.confidence = "medium") ∧
      (∀ fd3, detect "watch-history.json" fd3 =
        .ok ⟨"watch-history.json", "json", "watch-history", "medium", []⟩) := by
  intro p fd fd2 h
  have key : ∀ (g g2 : FileData) (ft : String),
      classify_content p g ft = classify_content p g2 ft ∧
      ∃ cc conf notes, classify_content p g ft = .ok (cc, conf, notes) ∧ conf = "medium" := by
    intro g g2 ft
    unfold classify_content
    dsimp only
    split_ifs
    all_goals try exact ⟨by trivial, _, _, _, rfl, rfl⟩
    all_goals (exfalso; rcases h with h | h | h | h | h | h <;> simp_all)
  refine ⟨?_, ?_, fun fd3 => rfl⟩
  · unfold detect
    cases hdf : detect_file_type p with
    | mk ft n1 =>
        dsimp only
        rw [(key fd fd2 ft).1]
  · unfold detect
    cases hdf : detect_file_type p with
    | mk ft n1 =>
        dsimp only
        obtain ⟨cc, conf, notes, heq, hconf⟩ := (key fd fd ft).2
        rw [heq, hconf]
        exact ⟨_, rfl, rfl⟩

theorem c9_witness :
    detect "watch-history.json" ⟨.ok "x", some (.obj [("zzz", JsonValue.num 1)])⟩ =
      detect "watch-history.json" ⟨.error "unreadable", none⟩ ∧
    (∃ c, detect "watch-history.json" ⟨.ok "x", some (.obj [("zzz", JsonValue.num 1)])⟩ =
      .ok c ∧ c.confidence = "medium") ∧
    (∀ fd3, detect "watch-history.json" fd3 =
      .ok ⟨"watch-history.json", "json", "watch-history", "medium", []⟩) :=
  c9_filename_heuristics_precedence "watch-history.json"
    ⟨.ok "x", some (.obj [("zzz", JsonValue.num 1)])⟩
    ⟨.error "unreadable", none⟩ (Or.inl rfl)

/-- Claim C10: normalizing a CSV file with header Title, Channel Name,
Date and one quoted data row yields exactly one record whose title and
channel come from the case-insensitively matched columns and whose
date-only timestamp parses, clearing the uncertainty flag. -/
theorem c10_csv_scenario :
    (normalize_file "listening.csv"
        ⟨.ok "Title,Channel Name,Date\n\"Song\",\"Artist1\",\"2023-05-01\"\n", none⟩
        ⟨"listening.csv", "csv", "unknown", "low", []⟩).length = 1 ∧
    (normalize_file "listening.csv"
        ⟨.ok "Title,Channel Name,Date\n\"Song\",\"Artist1\",\"2023-05-01\"\n", none⟩
        ⟨"listening.csv", "csv", "unknown", "low", []⟩).map
        (fun r => (r.title, r.channel, r.timestamp_uncertain)) =
      [(some "Song", some "Artist1", false)] := by
  exact ⟨rfl, rfl⟩
